import Mathlib

/-!
Verification development for `scripts/clip_embed.py`: a one-shot CLI adapter
that reads a JSON request from stdin, embeds an image or a text via a
pretrained CLIP model, and prints the embedding vector as a JSON array.

The script is embedded shallowly:
* `JVal` models the Python values produced by `json.load` (JSON numbers are
  modelled as integers; only truthiness and equality with string literals
  matter to the script's control flow).
* `PyVal` models the dynamic values returned by the embedding library
  (`nd` stands for a numpy-style array object exposing a `tolist` method).
* `Env` packages the external collaborators (model construction, base64
  decoding, image opening, the model's encode operations) as abstract
  functions that may fail, mirroring Python exceptions with `Except`.
* `encode_image`, `encode_text` and `main` are direct translations of the
  source functions; they additionally return a trace recording model
  constructions and the arguments of each encode call, so that temporal
  claims (construction order, call counts) can be stated.
-/

/-- Python values produced by `json.load`. -/
inductive JVal where
  | str (s : String)
  | num (n : Int)
  | bool (b : Bool)
  | null
  | arr (xs : List JVal)
  | obj (fields : List (String × JVal))
deriving Repr

/-- Python truthiness (`bool(v)`) of a decoded JSON value. -/
def truthy : JVal → Bool
  | .str s => s ≠ ""
  | .num n => n ≠ 0
  | .bool b => b
  | .null => false
  | .arr xs => !xs.isEmpty
  | .obj fs => !fs.isEmpty

/-- `payload.get(key)`: dictionary lookup returning `none` when absent. -/
def pyGet : List (String × JVal) → String → Option JVal
  | [], _ => none
  | (k, v) :: rest, key => if k = key then some v else pyGet rest key

/-- `payload.get(key, default)`. -/
def pyGetD (payload : List (String × JVal)) (key : String) (dflt : JVal) : JVal :=
  match pyGet payload key with
  | some v => v
  | none => dflt

/-- Python `v == "lit"` for a decoded JSON value against a string literal. -/
def jeqStr (v : JVal) (lit : String) : Bool :=
  match v with
  | .str s => s = lit
  | _ => false

mutual

/-- Python `repr` of a decoded JSON value (string quoting ignores escapes). -/
def pyRepr : JVal → String
  | .str s => "'" ++ s ++ "'"
  | .num n => toString n
  | .bool true => "True"
  | .bool false => "False"
  | .null => "None"
  | .arr xs => "[" ++ pyReprList xs ++ "]"
  | .obj fs => "\x7b" ++ pyReprObj fs ++ "\x7d"

/-- Comma-separated `repr`s of list items. -/
def pyReprList : List JVal → String
  | [] => ""
  | [x] => pyRepr x
  | x :: y :: rest => pyRepr x ++ ", " ++ pyReprList (y :: rest)

/-- Comma-separated `repr`s of dictionary items. -/
def pyReprObj : List (String × JVal) → String
  | [] => ""
  | [(k, v)] => "'" ++ k ++ "': " ++ pyRepr v
  | (k, v) :: y :: rest => "'" ++ k ++ "': " ++ pyRepr v ++ ", " ++ pyReprObj (y :: rest)

end

/-- Python `str(v)` (as used by the f-string `f"Unsupported mode: {mode}"`):
identical to `repr` except that a top-level string is unquoted. -/
def pyStr : JVal → String
  | .str s => s
  | v => pyRepr v

/-- Dynamic Python values returned by the embedding library. `nd t` is a
numpy-style array object whose `tolist()` returns `t`; plain lists, numbers
and strings are the ordinary Python values; `pyNone` is `None`. -/
inductive PyVal where
  | num (n : Int)
  | str (s : String)
  | list (xs : List PyVal)
  | nd (t : PyVal)
  | pyNone
deriving Repr

/-- `hasattr(v, "tolist")`. -/
def hasattrTolist : PyVal → Bool
  | .nd _ => true
  | _ => false

/-- `v.tolist()` (identity on values without the attribute; the script only
calls it under the `hasattr` guard). -/
def tolist : PyVal → PyVal
  | .nd t => t
  | v => v

/-- `isinstance(v, list)`. -/
def pyIsList : PyVal → Bool
  | .list _ => true
  | _ => false

/-- `len(v)` for a list (zero elsewhere; the script guards with `isinstance`). -/
def pyLen : PyVal → Nat
  | .list xs => xs.length
  | _ => 0

/-- `v[0]` for a non-empty list (the script guards with `len(v) > 0`). -/
def pyFirst : PyVal → PyVal
  | .list (x :: _) => x
  | _ => .pyNone

/-- A PIL image, abstracted to its pixel-content identifier, color mode and
size: `convert` and `resize` act on the metadata the claims mention. -/
structure Img where
  content : Nat
  mode : String
  width : Nat
  height : Nat
deriving Repr, DecidableEq

/-- `image.convert(m)`. -/
def Img.convert (i : Img) (m : String) : Img := { i with mode := m }

/-- `image.resize((w, h))`. -/
def Img.resize (i : Img) (w h : Nat) : Img := { i with width := w, height := h }

/-- The external collaborators, abstracted: model construction
(`SentenceTransformer(MODEL_NAME)`), `base64.b64decode`,
`Image.open(BytesIO(...))`, and the model's two encode operations. Each may
fail with a Python-exception message, modelled by `Except`. `b64decode`
takes an arbitrary decoded JSON value because the script passes whatever
truthy value sat under `imageBase64` (a non-string raises a `TypeError`,
which the abstract function may model as an `error`). -/
structure Env where
  loadModel : Except String Unit
  b64decode : JVal → Except String (List Nat)
  openImage : List Nat → Except String Img
  encodeImage : Img → Except String PyVal
  encodeBatch : List JVal → Except String PyVal

/-- `encode_image(model, image_base64)`: decode the base64 payload, open it
as an image, convert to RGB, resize to 224x224, encode, and normalize the
result via `tolist` when available. Also returns the list of images the
model's single-item encode operation was invoked on. -/
def encode_image (env : Env) (image_base64 : JVal) :
    Except String PyVal × List Img :=
  match env.b64decode image_base64 with
  | .error e => (.error e, [])
  | .ok image_bytes =>
    match env.openImage image_bytes with
    | .error e => (.error e, [])
    | .ok opened =>
      let image := (opened.convert "RGB").resize 224 224
      match env.encodeImage image with
      | .error e => (.error e, [image])
      | .ok embedding =>
        if hasattrTolist embedding then (.ok (tolist embedding), [image])
        else (.ok embedding, [image])

/-- The result normalization performed by `encode_text` after the batch
encode: convert via `tolist` when available, then unwrap `embedding[0]`
when the value is a list, non-empty, and its first element is a list. -/
def unwrapEmbedding (embedding : PyVal) : PyVal :=
  let e := if hasattrTolist embedding then tolist embedding else embedding
  if pyIsList e && decide (0 < pyLen e) && pyIsList (pyFirst e) then pyFirst e
  else e

/-- `encode_text(model, text)`: wrap the text as a one-element batch, invoke
the model's batch encode operation, and normalize the result. Also returns
the list of batches the batch encode operation was invoked on. -/
def encode_text (env : Env) (text : JVal) :
    Except String PyVal × List (List JVal) :=
  match env.encodeBatch [text] with
  | .error e => (.error e, [[text]])
  | .ok embedding => (.ok (unwrapEmbedding embedding), [[text]])

/-- Which `raise` site (in the spec's taxonomy) produced a failure:
`validation` for the three explicit `ValueError`s of `main`, `stage` for
failures propagated from the external collaborators or serialization. -/
inductive ErrKind where
  | validation
  | stage
deriving Repr, DecidableEq

/-- Trace of the effects `main` performs on the model: how many model
instances were constructed, and the arguments of every encode call. -/
structure Trace where
  modelLoads : Nat
  imageCalls : List Img
  textCalls : List (List JVal)
deriving Repr

/-- Observable outcome of one process invocation: what was written to
stdout and stderr, the exit code, the kind of error (if any), and the
effect trace. -/
structure RunResult where
  stdout : String
  stderrText : String
  exitCode : Nat
  errKind : Option ErrKind
  trace : Trace
deriving Repr

/-- Successful termination: the serialized vector on stdout, exit code 0. -/
def runOk (s : String) (tr : Trace) : RunResult :=
  { stdout := s, stderrText := "", exitCode := 0, errKind := none, trace := tr }

/-- Failure: `print(str(exc), file=sys.stderr)` then `sys.exit(1)`. -/
def runErr (k : ErrKind) (msg : String) (tr : Trace) : RunResult :=
  { stdout := "", stderrText := msg ++ "\n", exitCode := 1, errKind := some k, trace := tr }

mutual

/-- `json.dump(v, sys.stdout)`: `none` when the value is not JSON
serializable (a numpy-style array reaches the encoder), otherwise the
serialized text with the default `", "` separator. -/
def dumpJson : PyVal → Option String
  | .num n => some (toString n)
  | .str s => some ("\"" ++ s ++ "\"")
  | .pyNone => some "null"
  | .nd _ => none
  | .list xs =>
    match dumpJsonList xs with
    | some s => some ("[" ++ s ++ "]")
    | none => none

/-- Serialize list items, comma-separated; fails if any item fails. -/
def dumpJsonList : List PyVal → Option String
  | [] => some ""
  | [x] => dumpJson x
  | x :: y :: rest =>
    match dumpJson x, dumpJsonList (y :: rest) with
    | some a, some b => some (a ++ ", " ++ b)
    | _, _ => none

end

/-- The final `json.dump(output, sys.stdout)` step of `main`. -/
def emit (output : PyVal) (tr : Trace) : RunResult :=
  match dumpJson output with
  | some s => runOk s tr
  | none => runErr .stage "Object is not JSON serializable" tr

/-- `main()`, after `json.load` produced the object `payload`: validate
`mode`, construct the model, dispatch on the mode, and serialize the
output; any exception is caught, printed to stderr, and the process exits
with code 1. (Named `mainRun` because Lean reserves `main` for programs.) -/
def mainRun (env : Env) (payload : List (String × JVal)) : RunResult :=
  match pyGet payload "mode" with
  | none => runErr .validation "Missing mode" ⟨0, [], []⟩
  | some mode =>
    if truthy mode = false then runErr .validation "Missing mode" ⟨0, [], []⟩
    else
      match env.loadModel with
      | .error e => runErr .stage e ⟨0, [], []⟩
      | .ok _ =>
        if jeqStr mode "image" then
          match pyGet payload "imageBase64" with
          | none => runErr .validation "Missing imageBase64" ⟨1, [], []⟩
          | some ib =>
            if truthy ib = false then
              runErr .validation "Missing imageBase64" ⟨1, [], []⟩
            else
              match encode_image env ib with
              | (.ok output, calls) => emit output ⟨1, calls, []⟩
              | (.error e, calls) => runErr .stage e ⟨1, calls, []⟩
        else if jeqStr mode "text" then
          match encode_text env (pyGetD payload "text" (JVal.str "")) with
          | (.ok output, calls) => emit output ⟨1, [], calls⟩
          | (.error e, calls) => runErr .stage e ⟨1, [], calls⟩
        else
          runErr .validation ("Unsupported mode: " ++ pyStr mode) ⟨1, [], []⟩

/-! ## Specification-side definitions

Two definitions below follow the words of spec sentences (rather than the
source) so that the source behavior can be compared against them; each is
marked as such in its doc comment. -/

/-- Spec-worded variant of `encode_text` (section 4.2, "Text path"): after
the `tolist` normalization, "if the result is a sequence containing one
inner sequence, return that inner sequence; otherwise return the result
as-is" — i.e. unwrap only a singleton list whose element is a list. -/
def encode_text_claimed (env : Env) (text : JVal) :
    Except String PyVal × List (List JVal) :=
  match env.encodeBatch [text] with
  | .error e => (.error e, [[text]])
  | .ok embedding =>
    let e := if hasattrTolist embedding then tolist embedding else embedding
    match e with
    | .list [x] =>
      if pyIsList x then (.ok x, [[text]])
      else (.ok (PyVal.list [x]), [[text]])
    | _ => (.ok e, [[text]])

/-- The actual unwrap rule of the source, as a structural match, for the
amended form of the text-path claim: unwrap whenever the normalized result
is a non-empty list whose first element is a list, returning that first
element. -/
def encode_text_amended (env : Env) (text : JVal) :
    Except String PyVal × List (List JVal) :=
  match env.encodeBatch [text] with
  | .error e => (.error e, [[text]])
  | .ok embedding =>
    let e := if hasattrTolist embedding then tolist embedding else embedding
    match e with
    | .list (x :: rest) =>
      if pyIsList x then (.ok x, [[text]])
      else (.ok (PyVal.list (x :: rest)), [[text]])
    | _ => (.ok e, [[text]])

/-- Spec-worded validation-failure condition (section 4.1 / claim text):
`mode` absent, or `mode == "image"` and `imageBase64` absent or empty, or
`mode` neither `"image"` nor `"text"`. -/
def validationFailsClaimed (payload : List (String × JVal)) : Bool :=
  match pyGet payload "mode" with
  | none => true
  | some m =>
    (jeqStr m "image" &&
      (match pyGet payload "imageBase64" with
       | none => true
       | some ib => jeqStr ib "")) ||
    (!jeqStr m "image" && !jeqStr m "text")

/-- Amended validation-failure condition matching the source: `mode` absent
or falsy, or `mode == "image"` and `imageBase64` absent or falsy, or `mode`
truthy and neither `"image"` nor `"text"`. -/
def validationFailsAmended (payload : List (String × JVal)) : Bool :=
  match pyGet payload "mode" with
  | none => true
  | some m =>
    !truthy m ||
    (jeqStr m "image" &&
      (match pyGet payload "imageBase64" with
       | none => true
       | some ib => !truthy ib)) ||
    (truthy m && !jeqStr m "image" && !jeqStr m "text")

/-! ## Concrete fixtures used by witnesses and counterexamples -/

/-- An environment in which every external collaborator succeeds and the
model returns numpy-style arrays, as the real CLIP model does: the image
encode returns a 1-dimensional array, the batch encode a 2-dimensional
array holding one row per input. -/
def benignEnv : Env :=
  { loadModel := .ok ()
    b64decode := fun _ => .ok [7]
    openImage := fun _ => .ok ⟨0, "P", 640, 480⟩
    encodeImage := fun _ => .ok (PyVal.nd (PyVal.list [PyVal.num 2]))
    encodeBatch := fun _ => .ok (PyVal.nd (PyVal.list [PyVal.list [PyVal.num 1]])) }

/-- An environment whose batch encode returns a plain list with two rows,
exercising the unwrap rule on a non-singleton result. -/
def cexEnv : Env :=
  { loadModel := .ok ()
    b64decode := fun _ => .ok [7]
    openImage := fun _ => .ok ⟨0, "P", 640, 480⟩
    encodeImage := fun _ => .ok (PyVal.nd (PyVal.list [PyVal.num 2]))
    encodeBatch := fun _ =>
      .ok (PyVal.list [PyVal.list [PyVal.num 1], PyVal.list [PyVal.num 2]]) }

/-- `{"mode": "text", "text": "hello"}`. -/
def textPayload : List (String × JVal) :=
  [("mode", JVal.str "text"), ("text", JVal.str "hello")]

/-- `{"mode": "text"}` — no `text` field. -/
def textNoFieldPayload : List (String × JVal) :=
  [("mode", JVal.str "text")]

/-- `{"mode": "text", "text": null}`. -/
def textNullPayload : List (String × JVal) :=
  [("mode", JVal.str "text"), ("text", JVal.null)]

/-- `{"mode": "image", "imageBase64": false}` — present but falsy. -/
def falsyImagePayload : List (String × JVal) :=
  [("mode", JVal.str "image"), ("imageBase64", JVal.bool false)]

/-- `{"mode": "flurb"}` — an unrecognized (truthy) mode. -/
def weirdModePayload : List (String × JVal) :=
  [("mode", JVal.str "flurb")]

/-- `{"mode": ""}` — mode present but falsy. -/
def falsyModePayload : List (String × JVal) :=
  [("mode", JVal.str "")]

/-! ## Helper lemmas -/

/-- The guarded-index unwrap of `encode_text` equals a structural match:
unwrap exactly the non-empty lists whose first element is a list. -/
theorem unwrapEmbedding_eq (emb : PyVal) :
    unwrapEmbedding emb =
      match (if hasattrTolist emb then tolist emb else emb) with
      | .list (x :: rest) =>
        if pyIsList x then x else PyVal.list (x :: rest)
      | e => e := by
  unfold unwrapEmbedding
  cases h : (if hasattrTolist emb then tolist emb else emb) with
  | list xs =>
    cases xs with
    | nil => simp [pyIsList, pyLen, pyFirst]
    | cons x rest => cases x <;> simp [pyIsList, pyLen, pyFirst]
  | num n => simp [pyIsList]
  | str s => simp [pyIsList]
  | nd t => simp [pyIsList]
  | pyNone => simp [pyIsList]

/-! ## Claims -/

/-- C1: for a request in image mode whose base64 payload decodes to bytes
that open as a valid image, `encode_image` converts the image to RGB,
resizes it to exactly 224x224, invokes the model's single-item encode
operation exactly once on that resized image, and returns its result
normalized to a plain list via `tolist` when the library value carries
one. -/
theorem c1_image_pipeline (env : Env) (b64 : JVal) (bs : List Nat)
    (img : Img) (emb : PyVal)
    (hdec : env.b64decode b64 = Except.ok bs)
    (hopen : env.openImage bs = Except.ok img)
    (henc : env.encodeImage ((img.convert "RGB").resize 224 224) = Except.ok emb) :
    ((img.convert "RGB").resize 224 224).width = 224 ∧
    ((img.convert "RGB").resize 224 224).height = 224 ∧
    ((img.convert "RGB").resize 224 224).mode = "RGB" ∧
    encode_image env b64 =
      (Except.ok (if hasattrTolist emb then tolist emb else emb),
        [(img.convert "RGB").resize 224 224]) := by
  refine ⟨rfl, rfl, rfl, ?_⟩
  simp only [encode_image, hdec, hopen, henc]
  split <;> simp_all

/-- Witness for C1 at a concrete environment and payload. -/
theorem c1_image_pipeline_witness :
    (((Img.mk 0 "P" 640 480).convert "RGB").resize 224 224).width = 224 ∧
    (((Img.mk 0 "P" 640 480).convert "RGB").resize 224 224).height = 224 ∧
    (((Img.mk 0 "P" 640 480).convert "RGB").resize 224 224).mode = "RGB" ∧
    encode_image benignEnv (JVal.str "aGk=") =
      (Except.ok
        (if hasattrTolist (PyVal.nd (PyVal.list [PyVal.num 2])) then
          tolist (PyVal.nd (PyVal.list [PyVal.num 2]))
        else PyVal.nd (PyVal.list [PyVal.num 2])),
        [((Img.mk 0 "P" 640 480).convert "RGB").resize 224 224]) :=
  c1_image_pipeline benignEnv (JVal.str "aGk=") [7] (Img.mk 0 "P" 640 480)
    (PyVal.nd (PyVal.list [PyVal.num 2])) rfl rfl rfl

/-- C2 counterexample: with a batch encode returning two rows, the source
returns the first row, while the claim's rule ("unwrap iff the result is a
sequence containing one inner sequence, otherwise return as-is") keeps the
whole result; the two disagree. -/
theorem c2_counterexample :
    (encode_text cexEnv (JVal.str "a")).1 = Except.ok (PyVal.list [PyVal.num 1]) ∧
    (encode_text_claimed cexEnv (JVal.str "a")).1 =
      Except.ok (PyVal.list [PyVal.list [PyVal.num 1], PyVal.list [PyVal.num 2]]) ∧
    (encode_text cexEnv (JVal.str "a")).1 ≠ (encode_text_claimed cexEnv (JVal.str "a")).1 := by
  refine ⟨rfl, rfl, ?_⟩
  intro h
  simp [encode_text, encode_text_claimed, cexEnv, unwrapEmbedding, hasattrTolist,
    tolist, pyIsList, pyLen, pyFirst] at h

/-- C2 (amended): the text path wraps the input as a one-element batch,
invokes the batch encode once, and unwraps exactly when the normalized
result is a non-empty sequence whose first element is a sequence, returning
that first element; otherwise the result is returned as-is. -/
theorem c2_text_unwrap (env : Env) (text : JVal) :
    encode_text env text = encode_text_amended env text := by
  unfold encode_text encode_text_amended
  cases hb : env.encodeBatch [text] with
  | error e => rfl
  | ok emb =>
    simp only [unwrapEmbedding_eq]
    cases h : (if hasattrTolist emb then tolist emb else emb) with
    | list xs =>
      cases xs with
      | nil => rfl
      | cons x rest => cases hx : pyIsList x <;> simp [hx]
    | num n => rfl
    | str s => rfl
    | nd t => rfl
    | pyNone => rfl

/-- C8: determinism — the run result is a function of the request payload
and the fixed external environment alone, so two invocations on equal
requests produce equal outcomes. -/
theorem c8_deterministic (env : Env) (p q : List (String × JVal))
    (h : p = q) : mainRun env p = mainRun env q := by
  rw [h]

/-- Witness for C8 at a concrete request. -/
theorem c8_deterministic_witness :
    mainRun benignEnv textPayload = mainRun benignEnv textPayload :=
  c8_deterministic benignEnv textPayload textPayload rfl

/-- C9: a `mode` field that is present but falsy (empty string, 0, false,
null, ...) is rejected with the missing-mode error and exit code 1, before
any model construction. -/
theorem c9_falsy_mode (env : Env) (payload : List (String × JVal)) (v : JVal)
    (hm : pyGet payload "mode" = some v)
    (hf : truthy v = false) :
    mainRun env payload = runErr ErrKind.validation "Missing mode" ⟨0, [], []⟩ := by
  unfold mainRun
  rw [hm]
  simp [hf]

/-- Witness for C9 at `{"mode": ""}`. -/
theorem c9_falsy_mode_witness :
    mainRun benignEnv falsyModePayload =
      runErr ErrKind.validation "Missing mode" ⟨0, [], []⟩ :=
  c9_falsy_mode benignEnv falsyModePayload (JVal.str "") rfl rfl

/-- C10: in text mode, the empty-string default applies only to an absent
`text` key; an explicit `null` is passed through to the batch encode as the
null value itself, which differs from the empty string. -/
theorem c10_null_text (env : Env) (payload : List (String × JVal))
    (hm : pyGet payload "mode" = some (JVal.str "text"))
    (htext : pyGet payload "text" = some JVal.null)
    (hload : env.loadModel = Except.ok ()) :
    (mainRun env payload).trace.textCalls = [[JVal.null]] ∧
    (JVal.null : JVal) ≠ JVal.str "" := by
  refine ⟨?_, fun h => JVal.noConfusion h⟩
  unfold mainRun
  rw [hm, hload]
  simp only [truthy, jeqStr, pyGetD, htext]
  cases hb : env.encodeBatch [JVal.null] with
  | error e => simp [encode_text, hb, runErr]
  | ok emb =>
    simp only [encode_text, hb, emit]
    cases hd : dumpJson (unwrapEmbedding emb) <;> simp [runOk, runErr]

/-- Witness for C10 at `{"mode": "text", "text": null}`. -/
theorem c10_null_text_witness :
    (mainRun benignEnv textNullPayload).trace.textCalls = [[JVal.null]] ∧
    (JVal.null : JVal) ≠ JVal.str "" :=
  c10_null_text benignEnv textNullPayload rfl rfl rfl

/-- C6: a present, truthy, unrecognized `mode` terminates the process with
exit code 1 and an error line naming the offending mode value (provided
model construction — which the source performs before the mode dispatch —
succeeds). -/
theorem c6_unsupported_mode (env : Env) (payload : List (String × JVal))
    (m : JVal)
    (hm : pyGet payload "mode" = some m)
    (ht : truthy m = true)
    (hni : jeqStr m "image" = false)
    (hnt : jeqStr m "text" = false)
    (hload : env.loadModel = Except.ok ()) :
    (mainRun env payload).exitCode = 1 ∧
    (mainRun env payload).stderrText = "Unsupported mode: " ++ pyStr m ++ "\n" ∧
    ∃ pre post, (mainRun env payload).stderrText = pre ++ pyStr m ++ post := by
  have hmain : mainRun env payload =
      runErr ErrKind.validation ("Unsupported mode: " ++ pyStr m) ⟨1, [], []⟩ := by
    unfold mainRun
    rw [hm, hload]
    simp [ht, hni, hnt]
  rw [hmain]
  exact ⟨rfl, rfl, "Unsupported mode: ", "\n", rfl⟩

/-- Witness for C6 at `{"mode": "flurb"}`. -/
theorem c6_unsupported_mode_witness :
    (mainRun benignEnv weirdModePayload).exitCode = 1 ∧
    (mainRun benignEnv weirdModePayload).stderrText =
      "Unsupported mode: " ++ pyStr (JVal.str "flurb") ++ "\n" ∧
    ∃ pre post,
      (mainRun benignEnv weirdModePayload).stderrText =
        pre ++ pyStr (JVal.str "flurb") ++ post :=
  c6_unsupported_mode benignEnv weirdModePayload (JVal.str "flurb")
    rfl rfl rfl rfl rfl

/-- C7: in text mode with the `text` key entirely absent, the empty string
is encoded: the batch encode is invoked on `[""]` and the process succeeds,
printing the serialized vector (provided the model loads, encodes, and the
result serializes). -/
theorem c7_text_default_empty (env : Env) (payload : List (String × JVal))
    (emb : PyVal) (s : String)
    (hm : pyGet payload "mode" = some (JVal.str "text"))
    (hnotext : pyGet payload "text" = none)
    (hload : env.loadModel = Except.ok ())
    (henc : env.encodeBatch [JVal.str ""] = Except.ok emb)
    (hdump : dumpJson (unwrapEmbedding emb) = some s) :
    mainRun env payload = runOk s ⟨1, [], [[JVal.str ""]]⟩ := by
  unfold mainRun
  rw [hm, hload]
  simp [truthy, jeqStr, pyGetD, hnotext, encode_text, henc, emit, hdump]

/-- Witness for C7 at `{"mode": "text"}`. -/
theorem c7_text_default_empty_witness :
    mainRun benignEnv textNoFieldPayload = runOk "[1]" ⟨1, [], [[JVal.str ""]]⟩ :=
  c7_text_default_empty benignEnv textNoFieldPayload
    (PyVal.nd (PyVal.list [PyVal.list [PyVal.num 1]])) "[1]" rfl rfl rfl rfl rfl

/-- The output contract of the response encoder: either a successful exit
with a complete JSON serialization on stdout and nothing on stderr, or exit
code 1 with nothing on stdout and a single message line on stderr. -/
def outputContract (r : RunResult) : Prop :=
  (r.exitCode = 0 ∧ r.stderrText = "" ∧
    ∃ v : PyVal, dumpJson v = some r.stdout) ∨
  (r.exitCode = 1 ∧ r.stdout = "" ∧ ∃ msg : String, r.stderrText = msg ++ "\n")

/-- Every failure result satisfies the output contract. -/
theorem outputContract_runErr (k : ErrKind) (m : String) (tr : Trace) :
    outputContract (runErr k m tr) :=
  Or.inr ⟨rfl, rfl, m, rfl⟩

/-- The serialization step satisfies the output contract. -/
theorem outputContract_emit (out : PyVal) (tr : Trace) :
    outputContract (emit out tr) := by
  unfold emit
  cases h : dumpJson out with
  | some s => exact Or.inl ⟨rfl, rfl, out, h⟩
  | none => exact outputContract_runErr _ _ _

/-- C4: every invocation either serializes the complete vector to stdout
and exits with code 0, or writes a single error line to stderr, exits with
code 1, and writes nothing to stdout. -/
theorem c4_output_dichotomy (env : Env) (payload : List (String × JVal)) :
    outputContract (mainRun env payload) := by
  unfold mainRun
  repeat' split
  all_goals first
    | exact outputContract_emit _ _
    | exact outputContract_runErr _ _ _

/-- On a successful image path, the single-item encode was invoked exactly
once. -/
theorem encode_image_ok_calls (env : Env) (ib : JVal) (out : PyVal)
    (calls : List Img) (h : encode_image env ib = (Except.ok out, calls)) :
    calls.length = 1 := by
  unfold encode_image at h
  cases hb : env.b64decode ib with
  | error e => simp [hb] at h
  | ok bs =>
    simp only [hb] at h
    cases ho : env.openImage bs with
    | error e => simp [ho] at h
    | ok opened =>
      simp only [ho] at h
      cases he : env.encodeImage ((opened.convert "RGB").resize 224 224) with
      | error e => simp [he] at h
      | ok emb =>
        simp only [he] at h
        split at h <;> (injection h with h1 h2; rw [← h2]; rfl)

/-- The text path always invokes the batch encode exactly once, on the
one-element batch holding the input. -/
theorem encode_text_calls (env : Env) (t : JVal) :
    (encode_text env t).2 = [[t]] := by
  unfold encode_text
  cases h : env.encodeBatch [t] <;> rfl

/-- C3 counterexample: `{"mode": "image", "imageBase64": false}` has
`imageBase64` present and non-empty, so the claim's condition does not
hold, yet the source rejects the request with the missing-imageBase64
validation error. -/
theorem c3_counterexample :
    validationFailsClaimed falsyImagePayload = false ∧
    (mainRun benignEnv falsyImagePayload).errKind = some ErrKind.validation ∧
    (mainRun benignEnv falsyImagePayload).exitCode = 1 ∧
    (mainRun benignEnv falsyImagePayload).stderrText = "Missing imageBase64\n" :=
  ⟨rfl, rfl, rfl, rfl⟩

/-- C3 (amended): provided model construction succeeds, the request fails
with a validation error exactly when `mode` is absent or falsy, or `mode`
is `"image"` and `imageBase64` is absent or falsy, or `mode` is truthy and
neither `"image"` nor `"text"`; and every validation failure exits with
code 1. Extra fields never cause a validation failure. -/
theorem c3_validation_exactly (env : Env) (payload : List (String × JVal))
    (hload : env.loadModel = Except.ok ()) :
    ((mainRun env payload).errKind = some ErrKind.validation ↔
      validationFailsAmended payload = true) ∧
    ((mainRun env payload).errKind = some ErrKind.validation →
      (mainRun env payload).exitCode = 1) := by
  unfold mainRun validationFailsAmended
  cases hm : pyGet payload "mode" with
  | none => simp [hm, runErr]
  | some m =>
    rw [hload]
    cases ht : truthy m with
    | false => simp [hm, ht, runErr]
    | true =>
      cases hi : jeqStr m "image" with
      | true =>
        cases hib : pyGet payload "imageBase64" with
        | none => simp [hm, ht, hi, hib, runErr]
        | some ib =>
          cases hib2 : truthy ib with
          | false => simp [hm, ht, hi, hib, hib2, runErr]
          | true =>
            rcases hei : encode_image env ib with ⟨r, calls⟩
            cases r with
            | ok out =>
              cases hd : dumpJson out with
              | some s => simp [hm, ht, hi, hib, hib2, hei, emit, hd, runOk]
              | none => simp [hm, ht, hi, hib, hib2, hei, emit, hd, runErr]
            | error e => simp [hm, ht, hi, hib, hib2, hei, runErr]
      | false =>
        cases htx : jeqStr m "text" with
        | true =>
          rcases het : encode_text env (pyGetD payload "text" (JVal.str ""))
            with ⟨r, calls⟩
          cases r with
          | ok out =>
            cases hd : dumpJson out with
            | some s => simp [hm, ht, hi, htx, het, emit, hd, runOk]
            | none => simp [hm, ht, hi, htx, het, emit, hd, runErr]
          | error e => simp [hm, ht, hi, htx, het, runErr]
        | false => simp [hm, ht, hi, htx, runErr]

/-- Witness for C3 (amended) at `{"mode": "flurb"}`. -/
theorem c3_validation_exactly_witness :
    (((mainRun benignEnv weirdModePayload).errKind = some ErrKind.validation ↔
      validationFailsAmended weirdModePayload = true) ∧
    ((mainRun benignEnv weirdModePayload).errKind = some ErrKind.validation →
      (mainRun benignEnv weirdModePayload).exitCode = 1)) :=
  c3_validation_exactly benignEnv weirdModePayload rfl

/-- C5 counterexample: for `{"mode": "flurb"}` (an unrecognized mode, so
input validation fails), the source nevertheless constructs the model —
and then uses it for zero encode calls. -/
theorem c5_counterexample :
    (mainRun benignEnv weirdModePayload).trace.modelLoads = 1 ∧
    (mainRun benignEnv weirdModePayload).errKind = some ErrKind.validation ∧
    (mainRun benignEnv weirdModePayload).exitCode = 1 ∧
    (mainRun benignEnv weirdModePayload).trace.imageCalls = [] ∧
    (mainRun benignEnv weirdModePayload).trace.textCalls = [] :=
  ⟨rfl, rfl, rfl, rfl, rfl⟩

/-- C5 (amended): the model is constructed exactly when the mode-presence
check succeeds (mode present and truthy) and construction itself succeeds —
possibly before the remaining validation; every successful run performs
exactly one encode call, and every run that fails validation performs
none. -/
theorem c5_model_lifecycle (env : Env) (payload : List (String × JVal)) :
    ((mainRun env payload).trace.modelLoads = 1 ↔
      ((∃ m, pyGet payload "mode" = some m ∧ truthy m = true) ∧
        env.loadModel = Except.ok ())) ∧
    ((mainRun env payload).exitCode = 0 →
      (mainRun env payload).trace.imageCalls.length +
        (mainRun env payload).trace.textCalls.length = 1) ∧
    ((mainRun env payload).errKind = some ErrKind.validation →
      (mainRun env payload).trace.imageCalls.length +
        (mainRun env payload).trace.textCalls.length = 0) := by
  unfold mainRun
  cases hm : pyGet payload "mode" with
  | none => simp [hm, runErr]
  | some m =>
    cases ht : truthy m with
    | false => simp [hm, ht, runErr]
    | true =>
      cases hl : env.loadModel with
      | error e => simp [hm, ht, hl, runErr]
      | ok u =>
        cases u
        cases hi : jeqStr m "image" with
        | true =>
          cases hib : pyGet payload "imageBase64" with
          | none => simp [hm, ht, hl, hi, hib, runErr]
          | some ib =>
            cases hib2 : truthy ib with
            | false => simp [hm, ht, hl, hi, hib, hib2, runErr]
            | true =>
              rcases hei : encode_image env ib with ⟨r, calls⟩
              cases r with
              | ok out =>
                have hc : calls.length = 1 :=
                  encode_image_ok_calls env ib out calls hei
                cases hd : dumpJson out with
                | some s =>
                  simp [hm, ht, hl, hi, hib, hib2, hei, emit, hd, runOk, hc]
                | none =>
                  simp [hm, ht, hl, hi, hib, hib2, hei, emit, hd, runErr, hc]
              | error e => simp [hm, ht, hl, hi, hib, hib2, hei, runErr]
        | false =>
          cases htx : jeqStr m "text" with
          | true =>
            rcases het : encode_text env (pyGetD payload "text" (JVal.str ""))
              with ⟨r, calls⟩
            have hc : calls = [[pyGetD payload "text" (JVal.str "")]] := by
              have h2 := encode_text_calls env (pyGetD payload "text" (JVal.str ""))
              rw [het] at h2
              exact h2
            cases r with
            | ok out =>
              cases hd : dumpJson out with
              | some s => simp [hm, ht, hl, hi, htx, het, emit, hd, runOk, hc]
              | none => simp [hm, ht, hl, hi, htx, het, emit, hd, runErr, hc]
            | error e => simp [hm, ht, hl, hi, htx, het, runErr]
          | false => simp [hm, ht, hl, hi, htx, runErr]

/-- Witness for C5 (amended): a successful text request performs exactly
one encode call. -/
theorem c5_model_lifecycle_witness :
    (mainRun benignEnv textPayload).trace.imageCalls.length +
      (mainRun benignEnv textPayload).trace.textCalls.length = 1 :=
  (c5_model_lifecycle benignEnv textPayload).2.1 rfl
